import Mathlib

/-
Shallow embedding of the scoring core of the opposition-research
application (file app_dev_rewrite.py): the data model, the keyword-based
vote-alignment classifier, the per-vote scorer, and the aggregate
scoring engine.  Python float arithmetic on the dyadic constants used
here is exact, so the numeric domain is modelled by the rationals.
-/

namespace OppoResearch

/- Data model: the closed enumerations of the source. -/

inductive PolicyArea
  | taxPolicy
  | regulation
  | spending
  | trade
  | laborPolicy
deriving DecidableEq, Repr

inductive VoteResult
  | yea
  | nay
  | present
  | absent
deriving DecidableEq, Repr

inductive ScoreCategory
  | stronglyProMarket
  | leansProMarket
  | mixedModerate
  | leansRegulatory
  | stronglyRegulatory
deriving DecidableEq, Repr

/- ClientValues: policy_weights is a Python Dict, so a partial map;
score_interpretation and preferred_vote_outcomes likewise. -/

structure ClientValues where
  name : String
  description : String
  policy_weights : PolicyArea → Option ℚ
  score_interpretation : ScoreCategory → Option String
  preferred_vote_outcomes : String → Option Bool

/- VerifiableVote: the datetime field is modelled abstractly as a Nat
timestamp; the scoring core never inspects it. -/

structure VerifiableVote where
  bill_id : String
  bill_name : String
  vote_date : Nat
  vote_result : VoteResult
  policy_area : PolicyArea
  description : String
  source_url : Option String
  verification_status : String
deriving DecidableEq, Repr

/- Python substring containment (the in operator on str): needle occurs
contiguously in hay. -/

def charsContain (needle hay : List Char) : Bool :=
  match hay with
  | [] => needle.isEmpty
  | _ :: t => needle.isPrefixOf hay || charsContain needle t

def lowerChars (s : String) : List Char :=
  s.toList.map Char.toLower

def strContains (hay : List Char) (needle : String) : Bool :=
  charsContain needle.toList hay

/- The keyword tables of _vote_aligns_with_values, verbatim. -/

def tax_cut_terms : List String :=
  ["tax cut", "reduce tax", "tax reduction", "tax relief", "lower tax", "tax decrease"]

def tax_increase_terms : List String :=
  ["tax increase", "raise tax", "higher tax", "tax hike"]

def dereg_terms : List String :=
  ["deregulat", "reduce regulation", "eliminate regulation", "regulatory relief"]

def reg_terms : List String :=
  ["new regulation", "increase regulation", "expand regulation", "regulatory expansion"]

def cut_terms : List String :=
  ["cut spending", "reduce budget", "spending reduction", "fiscal restraint"]

def increase_terms : List String :=
  ["increase spending", "expand budget", "spending increase", "more funding"]

def trade_terms : List String :=
  ["free trade", "trade agreement", "reduce tariff", "eliminate tariff"]

def protectionist_terms : List String :=
  ["increase tariff", "trade protection", "import restriction"]

def labor_freedom_terms : List String :=
  ["reduce minimum wage", "labor flexibility", "right to work"]

def labor_restriction_terms : List String :=
  ["increase minimum wage", "expand union", "worker protection"]

/- VoteScorer._vote_aligns_with_values: an if/elif chain over the closed
PolicyArea enumeration, each branch checking the supporting list first
and the opposing list second, falling through to False. -/

def vote_aligns_with_values (vote : VerifiableVote) : Bool :=
  match vote.policy_area with
  | PolicyArea.taxPolicy =>
    if tax_cut_terms.any (fun term => strContains (lowerChars vote.description) term) then
      true
    else if tax_increase_terms.any (fun term => strContains (lowerChars vote.description) term) then
      false
    else
      false
  | PolicyArea.regulation =>
    if dereg_terms.any (fun term => strContains (lowerChars vote.description) term) then
      true
    else if reg_terms.any (fun term => strContains (lowerChars vote.description) term) then
      false
    else
      false
  | PolicyArea.spending =>
    if cut_terms.any (fun term => strContains (lowerChars vote.description) term) then
      true
    else if increase_terms.any (fun term => strContains (lowerChars vote.description) term) then
      false
    else
      false
  | PolicyArea.trade =>
    if trade_terms.any (fun term => strContains (lowerChars vote.description) term) then
      true
    else if protectionist_terms.any (fun term => strContains (lowerChars vote.description) term) then
      false
    else
      false
  | PolicyArea.laborPolicy =>
    if labor_freedom_terms.any (fun term => strContains (lowerChars vote.description) term) then
      true
    else if labor_restriction_terms.any (fun term => strContains (lowerChars vote.description) term) then
      false
    else
      false

/- The supporting-term table per area, as the branches above read it. -/

def support_terms : PolicyArea → List String
  | PolicyArea.taxPolicy => tax_cut_terms
  | PolicyArea.regulation => dereg_terms
  | PolicyArea.spending => cut_terms
  | PolicyArea.trade => trade_terms
  | PolicyArea.laborPolicy => labor_freedom_terms

/- The opposing-term table per area. -/

def oppose_terms : PolicyArea → List String
  | PolicyArea.taxPolicy => tax_increase_terms
  | PolicyArea.regulation => reg_terms
  | PolicyArea.spending => increase_terms
  | PolicyArea.trade => protectionist_terms
  | PolicyArea.laborPolicy => labor_restriction_terms

/- The alignment_score local of score_vote. -/

def alignment_score (vote : VerifiableVote) : ℚ :=
  match vote.vote_result with
  | VoteResult.yea => if vote_aligns_with_values vote then 75 else 25
  | VoteResult.nay => if vote_aligns_with_values vote then 25 else 75
  | _ => 50

/- VoteScorer.score_vote: neutral base 50, alignment score from the vote
result and the classifier, area weight from the Dict with default 0.2,
blend, then clamp to the unit-hundred interval. -/

def score_vote (client_values : ClientValues) (vote : VerifiableVote) : ℚ :=
  let base_score : ℚ := 50
  let area_weight : ℚ := (client_values.policy_weights vote.policy_area).getD (1/5)
  let final_score := base_score + (alignment_score vote - base_score) * area_weight * 2
  max 0 (min 100 final_score)

/- ScoringEngine._score_to_category. -/

def score_to_category (score : ℚ) : ScoreCategory :=
  if score ≥ 80 then ScoreCategory.stronglyProMarket
  else if score ≥ 60 then ScoreCategory.leansProMarket
  else if score ≥ 40 then ScoreCategory.mixedModerate
  else if score ≥ 20 then ScoreCategory.leansRegulatory
  else ScoreCategory.stronglyRegulatory

/- ScoringEngine.calculate_overall_score, applied to the verified_votes
list of a research result. -/

def calculate_overall_score (client_values : ClientValues)
    (verified_votes : List VerifiableVote) : ℚ × ScoreCategory :=
  if verified_votes.isEmpty then
    (50, ScoreCategory.mixedModerate)
  else
    let vote_scores := verified_votes.map (score_vote client_values)
    let overall_score := vote_scores.sum / vote_scores.length
    (overall_score, score_to_category overall_score)

/- DEFAULT_CLIENT_VALUES of the source, with its exact weights. -/

def default_policy_weights : PolicyArea → Option ℚ
  | PolicyArea.taxPolicy => some (1/4)
  | PolicyArea.regulation => some (1/4)
  | PolicyArea.spending => some (1/5)
  | PolicyArea.trade => some (3/20)
  | PolicyArea.laborPolicy => some (3/20)

def default_score_interpretation : ScoreCategory → Option String
  | ScoreCategory.stronglyProMarket => some "Champion of economic freedom"
  | ScoreCategory.leansProMarket => some "Generally supports free markets"
  | ScoreCategory.mixedModerate => some "Mixed record on economic issues"
  | ScoreCategory.leansRegulatory => some "Tends toward government intervention"
  | ScoreCategory.stronglyRegulatory => some "Opposes free market principles"

def default_preferred_vote_outcomes : String → Option Bool
  | "tax_cut" => some true
  | "tax_increase" => some false
  | "deregulation" => some true
  | "new_regulation" => some false
  | "spending_cut" => some true
  | "spending_increase" => some false
  | "free_trade" => some true
  | "protectionism" => some false
  | _ => none

def DEFAULT_CLIENT_VALUES : ClientValues where
  name := "Economic Freedom Focus"
  description := "Fiscal discipline and economic freedom analysis"
  policy_weights := default_policy_weights
  score_interpretation := default_score_interpretation
  preferred_vote_outcomes := default_preferred_vote_outcomes

/- The pro-market test vote of test_vote_scorer. -/

def pro_market_vote : VerifiableVote where
  bill_id := "HR123"
  bill_name := "Tax Cuts Act"
  vote_date := 0
  vote_result := VoteResult.yea
  policy_area := PolicyArea.taxPolicy
  description := "Reduces corporate tax rates by 5%"
  source_url := none
  verification_status := "pending"


/- The neutral test vote of test_vote_scorer. -/

def neutral_vote : VerifiableVote where
  bill_id := "HR789"
  bill_name := "Procedural Motion"
  vote_date := 0
  vote_result := VoteResult.present
  policy_area := PolicyArea.taxPolicy
  description := "Procedural motion on tax legislation"
  source_url := none
  verification_status := "pending"

/- A tax-policy vote whose description holds both a supporting and an
opposing keyword. -/

def both_terms_vote : VerifiableVote where
  bill_id := "HR555"
  bill_name := "Mixed Tax Act"
  vote_date := 0
  vote_result := VoteResult.yea
  policy_area := PolicyArea.taxPolicy
  description := "Combines a tax cut for families with a tax hike on fuel"
  source_url := none
  verification_status := "pending"

/- A configuration whose weight Dict has no entries at all. -/

def no_weights_config : ClientValues where
  name := "No Weights"
  description := "Configuration with an empty policy weight map"
  policy_weights := fun _ => none
  score_interpretation := default_score_interpretation
  preferred_vote_outcomes := default_preferred_vote_outcomes

/- A vote agreeing with pro_market_vote on vote_result, policy_area and
description while differing on every other field. -/

def pro_market_vote_alt : VerifiableVote where
  bill_id := "S999"
  bill_name := "Senate Companion Bill"
  vote_date := 7
  vote_result := VoteResult.yea
  policy_area := PolicyArea.taxPolicy
  description := "Reduces corporate tax rates by 5%"
  source_url := some "https://example.gov/vote"
  verification_status := "disputed"

/- Helper lemmas shared by the claim theorems. -/

lemma clamp_eval (x : ℚ) (h0 : 0 ≤ x) (h100 : x ≤ 100) :
    max 0 (min 100 x) = x := by
  rw [min_eq_right h100, max_eq_right h0]

lemma clamp_symm_sum (x : ℚ) :
    max 0 (min 100 (50 + x)) + max 0 (min 100 (50 - x)) = 100 := by
  rcases le_total x (-50) with h | h
  · have h1 : (50:ℚ) + x ≤ 100 := by linarith
    have h2 : (50:ℚ) + x ≤ 0 := by linarith
    have h3 : (100:ℚ) ≤ 50 - x := by linarith
    rw [min_eq_right h1, max_eq_left h2, min_eq_left h3,
        max_eq_right (by norm_num : (0:ℚ) ≤ 100)]
    norm_num
  · rcases le_total x 50 with h2 | h2
    · have h3 : (50:ℚ) + x ≤ 100 := by linarith
      have h4 : (0:ℚ) ≤ 50 + x := by linarith
      have h5 : (50:ℚ) - x ≤ 100 := by linarith
      have h6 : (0:ℚ) ≤ 50 - x := by linarith
      rw [min_eq_right h3, max_eq_right h4, min_eq_right h5, max_eq_right h6]
      ring
    · have h3 : (100:ℚ) ≤ 50 + x := by linarith
      have h4 : (50:ℚ) - x ≤ 100 := by linarith
      have h5 : (50:ℚ) - x ≤ 0 := by linarith
      rw [min_eq_left h3, max_eq_right (by norm_num : (0:ℚ) ≤ 100),
          min_eq_right h4, max_eq_left h5]
      norm_num

lemma alignment_score_cases (v : VerifiableVote) :
    alignment_score v = 25 ∨ alignment_score v = 50 ∨ alignment_score v = 75 := by
  rcases hv : v.vote_result <;> rcases ha : vote_aligns_with_values v <;>
    simp [alignment_score, hv, ha]


/-- C1: at the tax-policy Yea vote with description "Reduces corporate tax
rates by 5%" under the default configuration (tax-policy weight 0.25), the
code classifies the vote as not aligned, produces raw alignment score 25,
and score_vote returns 37.5 = 75/2, which is not greater than 50.  The
claim (and the assertion of test_vote_scorer in the repository) expects
aligned, 75, and 62.5 instead. -/
theorem c1_pro_market_vote_code_behavior :
    vote_aligns_with_values pro_market_vote = false ∧
    alignment_score pro_market_vote = 25 ∧
    score_vote DEFAULT_CLIENT_VALUES pro_market_vote = 75/2 ∧
    ¬ 50 < score_vote DEFAULT_CLIENT_VALUES pro_market_vote := by
  have h : vote_aligns_with_values pro_market_vote = false := by decide
  have ha : alignment_score pro_market_vote = 25 := by
    simp [alignment_score, show pro_market_vote.vote_result = VoteResult.yea from rfl, h]
  have hs : score_vote DEFAULT_CLIENT_VALUES pro_market_vote = 75/2 := by
    show max 0 (min 100 (50 + (alignment_score pro_market_vote - 50) *
      ((DEFAULT_CLIENT_VALUES.policy_weights pro_market_vote.policy_area).getD (1/5)) * 2))
      = 75/2
    rw [ha,
      show DEFAULT_CLIENT_VALUES.policy_weights pro_market_vote.policy_area
        = some (1/4) from rfl,
      show ((50:ℚ) + (25 - 50) * ((some ((1:ℚ)/4)).getD (1/5)) * 2) = 75/2 from by
        norm_num [Option.getD]]
    exact clamp_eval _ (by norm_num) (by norm_num)
  exact ⟨h, ha, hs, by rw [hs]; norm_num⟩

/-- C2: every vote whose result is Present or Absent gets score exactly 50
from score_vote, for any configuration, policy area, weight and
description. -/
theorem c2_present_absent_scores_fifty (cfg : ClientValues) (v : VerifiableVote)
    (h : v.vote_result = VoteResult.present ∨ v.vote_result = VoteResult.absent) :
    score_vote cfg v = 50 := by
  have ha : alignment_score v = 50 := by
    rcases h with h | h <;> simp [alignment_score, h]
  show max 0 (min 100 (50 + (alignment_score v - 50) *
    ((cfg.policy_weights v.policy_area).getD (1/5)) * 2)) = 50
  rw [ha, show ∀ w : ℚ, (50:ℚ) + (50 - 50) * w * 2 = 50 from fun w => by ring]
  exact clamp_eval 50 (by norm_num) (by norm_num)

/-- C2 witness: the Present procedural vote of the test suite scores 50
under the default configuration. -/
theorem c2_present_absent_scores_fifty_witness :
    (neutral_vote.vote_result = VoteResult.present ∨
      neutral_vote.vote_result = VoteResult.absent) ∧
    score_vote DEFAULT_CLIENT_VALUES neutral_vote = 50 :=
  ⟨Or.inl rfl,
   c2_present_absent_scores_fifty DEFAULT_CLIENT_VALUES neutral_vote (Or.inl rfl)⟩

/-- C3: for every configuration, aggregating the empty vote list returns
the sentinel pair of score 50 and category mixed_moderate; the function
is total there. -/
theorem c3_empty_votes_sentinel (cfg : ClientValues) :
    calculate_overall_score cfg [] = (50, ScoreCategory.mixedModerate) := rfl

/-- C4: the score-to-category map is lower-bound inclusive on the bands
at 80, 60, 40 and 20, with everything below 20 in the lowest band; in
particular 80 is strongly_pro_market, 79.9 and 60 are leans_pro_market,
40 is mixed_moderate and 20 is leans_regulatory. -/
theorem c4_category_thresholds :
    (∀ s : ℚ, 80 ≤ s → score_to_category s = ScoreCategory.stronglyProMarket) ∧
    (∀ s : ℚ, 60 ≤ s → s < 80 → score_to_category s = ScoreCategory.leansProMarket) ∧
    (∀ s : ℚ, 40 ≤ s → s < 60 → score_to_category s = ScoreCategory.mixedModerate) ∧
    (∀ s : ℚ, 20 ≤ s → s < 40 → score_to_category s = ScoreCategory.leansRegulatory) ∧
    (∀ s : ℚ, s < 20 → score_to_category s = ScoreCategory.stronglyRegulatory) ∧
    score_to_category 80 = ScoreCategory.stronglyProMarket ∧
    score_to_category (799/10) = ScoreCategory.leansProMarket ∧
    score_to_category 60 = ScoreCategory.leansProMarket ∧
    score_to_category 40 = ScoreCategory.mixedModerate ∧
    score_to_category 20 = ScoreCategory.leansRegulatory := by
  refine ⟨fun s h => ?_, fun s h1 h2 => ?_, fun s h1 h2 => ?_, fun s h1 h2 => ?_,
    fun s h => ?_, ?_, ?_, ?_, ?_, ?_⟩
  · rw [score_to_category, if_pos (by linarith)]
  · rw [score_to_category, if_neg (by linarith), if_pos (by linarith)]
  · rw [score_to_category, if_neg (by linarith), if_neg (by linarith),
      if_pos (by linarith)]
  · rw [score_to_category, if_neg (by linarith), if_neg (by linarith),
      if_neg (by linarith), if_pos (by linarith)]
  · rw [score_to_category, if_neg (by linarith), if_neg (by linarith),
      if_neg (by linarith), if_neg (by linarith)]
  · norm_num [score_to_category]
  · norm_num [score_to_category]
  · norm_num [score_to_category]
  · norm_num [score_to_category]
  · norm_num [score_to_category]

/-- C4 witness: the threshold clauses applied at sample scores inside each
band. -/
theorem c4_category_thresholds_witness :
    (80:ℚ) ≤ 95 ∧ score_to_category 95 = ScoreCategory.stronglyProMarket ∧
    (20:ℚ) ≤ 25 ∧ (25:ℚ) < 40 ∧
    score_to_category 25 = ScoreCategory.leansRegulatory ∧
    (5:ℚ) < 20 ∧ score_to_category 5 = ScoreCategory.stronglyRegulatory :=
  ⟨by norm_num, c4_category_thresholds.1 95 (by norm_num),
   by norm_num, by norm_num,
   c4_category_thresholds.2.2.2.1 25 (by norm_num) (by norm_num),
   by norm_num, c4_category_thresholds.2.2.2.2.1 5 (by norm_num)⟩

/-- C5: for every vote and configuration whose effective weight for the
area of the vote is non-negative, score_vote lands in the closed interval
from 0 to 100. -/
theorem c5_score_in_range (cfg : ClientValues) (v : VerifiableVote)
    (_h : 0 ≤ (cfg.policy_weights v.policy_area).getD (1/5)) :
    0 ≤ score_vote cfg v ∧ score_vote cfg v ≤ 100 := by
  constructor
  · show 0 ≤ max 0 (min 100 (50 + (alignment_score v - 50) *
      ((cfg.policy_weights v.policy_area).getD (1/5)) * 2))
    exact le_max_left 0 _
  · show max 0 (min 100 (50 + (alignment_score v - 50) *
      ((cfg.policy_weights v.policy_area).getD (1/5)) * 2)) ≤ 100
    exact max_le (by norm_num) (min_le_left _ _)

/-- C5 witness: the clamp property at the pro-market test vote under the
default configuration, whose tax-policy weight is the non-negative 0.25. -/
theorem c5_score_in_range_witness :
    (0 ≤ (DEFAULT_CLIENT_VALUES.policy_weights pro_market_vote.policy_area).getD (1/5)) ∧
    0 ≤ score_vote DEFAULT_CLIENT_VALUES pro_market_vote ∧
    score_vote DEFAULT_CLIENT_VALUES pro_market_vote ≤ 100 := by
  have h : (0:ℚ) ≤ (DEFAULT_CLIENT_VALUES.policy_weights pro_market_vote.policy_area).getD (1/5) := by
    rw [show DEFAULT_CLIENT_VALUES.policy_weights pro_market_vote.policy_area
      = some (1/4) from rfl]
    norm_num [Option.getD]
  exact ⟨h, (c5_score_in_range DEFAULT_CLIENT_VALUES pro_market_vote h).1,
    (c5_score_in_range DEFAULT_CLIENT_VALUES pro_market_vote h).2⟩


/-- C6: in every policy area the supporting-term list is consulted
strictly before the opposing-term list: whenever some supporting term of
the area of the vote occurs in the lowercased description, the classifier
answers aligned, whatever else the description holds. -/
theorem c6_support_terms_checked_first (v : VerifiableVote)
    (h : (support_terms v.policy_area).any
      (fun term => strContains (lowerChars v.description) term) = true) :
    vote_aligns_with_values v = true := by
  rcases v with ⟨bid, bname, bdate, vr, pa, desc, su, vs⟩
  cases pa <;> simp only [support_terms] at h <;>
    simp [vote_aligns_with_values, h]

/-- C6 witness: a description holding both a supporting term (tax cut) and
an opposing term (tax hike) is classified aligned. -/
theorem c6_support_terms_checked_first_witness :
    ((support_terms both_terms_vote.policy_area).any
      (fun term => strContains (lowerChars both_terms_vote.description) term) = true) ∧
    ((oppose_terms both_terms_vote.policy_area).any
      (fun term => strContains (lowerChars both_terms_vote.description) term) = true) ∧
    vote_aligns_with_values both_terms_vote = true :=
  ⟨by decide, by decide, c6_support_terms_checked_first both_terms_vote (by decide)⟩

/-- C7: when the weight Dict of the configuration has no entry for the
policy area of the vote, score_vote falls back to the default weight 0.2
and returns the unclamped blend 50 + (alignment_score - 50) * 0.2 * 2
without failing. -/
theorem c7_missing_weight_defaults (cfg : ClientValues) (v : VerifiableVote)
    (h : cfg.policy_weights v.policy_area = none) :
    score_vote cfg v = 50 + (alignment_score v - 50) * (1/5) * 2 := by
  show max 0 (min 100 (50 + (alignment_score v - 50) *
    ((cfg.policy_weights v.policy_area).getD (1/5)) * 2))
    = 50 + (alignment_score v - 50) * (1/5) * 2
  rw [h, show ((none : Option ℚ).getD (1/5)) = 1/5 from rfl]
  rcases alignment_score_cases v with hc | hc | hc <;> rw [hc] <;>
    exact clamp_eval _ (by norm_num) (by norm_num)

/-- C7 witness: under a configuration with an empty weight map, the
pro-market test vote is scored through the 0.2 default. -/
theorem c7_missing_weight_defaults_witness :
    no_weights_config.policy_weights pro_market_vote.policy_area = none ∧
    score_vote no_weights_config pro_market_vote
      = 50 + (alignment_score pro_market_vote - 50) * (1/5) * 2 :=
  ⟨rfl, c7_missing_weight_defaults no_weights_config pro_market_vote rfl⟩

/-- C8: the aggregate score and category are invariant under permutation
of the vote list. -/
theorem c8_aggregate_perm_invariant (cfg : ClientValues)
    (l1 l2 : List VerifiableVote) (h : l1.Perm l2) :
    calculate_overall_score cfg l1 = calculate_overall_score cfg l2 := by
  have hsum : (l1.map (score_vote cfg)).sum = (l2.map (score_vote cfg)).sum :=
    (h.map (score_vote cfg)).sum_eq
  have hlen : l1.length = l2.length := h.length_eq
  rcases l1 with _ | ⟨a, t1⟩
  · rw [h.symm.eq_nil]
  · rcases l2 with _ | ⟨b, t2⟩
    · exact absurd h.eq_nil (by simp)
    · have hL : ((a :: t1).map (score_vote cfg)).length
          = ((b :: t2).map (score_vote cfg)).length := by
        rw [List.length_map, List.length_map, hlen]
      unfold calculate_overall_score
      simp only [List.isEmpty_cons]
      rw [hsum, hL]

/-- C8 witness: swapping the two test votes leaves the aggregate pair
unchanged. -/
theorem c8_aggregate_perm_invariant_witness :
    ([pro_market_vote, neutral_vote].Perm [neutral_vote, pro_market_vote]) ∧
    calculate_overall_score DEFAULT_CLIENT_VALUES [pro_market_vote, neutral_vote]
      = calculate_overall_score DEFAULT_CLIENT_VALUES [neutral_vote, pro_market_vote] :=
  ⟨List.Perm.swap neutral_vote pro_market_vote [],
   c8_aggregate_perm_invariant DEFAULT_CLIENT_VALUES _ _
     (List.Perm.swap neutral_vote pro_market_vote [])⟩

/-- C9: for any configuration and any vote, flipping the result between
Yea and Nay while keeping every other field produces two scores that sum
to exactly 100; the symmetry about 50 survives the clamp. -/
theorem c9_yea_nay_symmetric (cfg : ClientValues) (v : VerifiableVote) :
    score_vote cfg { v with vote_result := VoteResult.yea }
      + score_vote cfg { v with vote_result := VoteResult.nay } = 100 := by
  have hy : alignment_score { v with vote_result := VoteResult.yea }
      = if vote_aligns_with_values v then (75:ℚ) else 25 := rfl
  have hn : alignment_score { v with vote_result := VoteResult.nay }
      = if vote_aligns_with_values v then (25:ℚ) else 75 := rfl
  show max 0 (min 100 (50 + (alignment_score { v with vote_result := VoteResult.yea } - 50) *
      ((cfg.policy_weights v.policy_area).getD (1/5)) * 2))
    + max 0 (min 100 (50 + (alignment_score { v with vote_result := VoteResult.nay } - 50) *
      ((cfg.policy_weights v.policy_area).getD (1/5)) * 2)) = 100
  rw [hy, hn]
  cases hva : vote_aligns_with_values v
  · rw [if_neg (by simp [hva]), if_neg (by simp [hva]),
      show (50:ℚ) + ((75:ℚ) - 50) * ((cfg.policy_weights v.policy_area).getD (1/5)) * 2
        = 50 - (((25:ℚ) - 50) * ((cfg.policy_weights v.policy_area).getD (1/5)) * 2) from by
        ring]
    exact clamp_symm_sum _
  · rw [if_pos rfl, if_pos rfl,
      show (50:ℚ) + ((25:ℚ) - 50) * ((cfg.policy_weights v.policy_area).getD (1/5)) * 2
        = 50 - (((75:ℚ) - 50) * ((cfg.policy_weights v.policy_area).getD (1/5)) * 2) from by
        ring]
    exact clamp_symm_sum _

/-- C10: score_vote reads only the vote_result, policy_area and
description fields of the vote besides the weight map of the
configuration; votes agreeing there score identically whatever their
bill_id, bill_name, vote_date, source_url or verification_status. -/
theorem c10_score_vote_field_independence (cfg : ClientValues)
    (v1 v2 : VerifiableVote)
    (hr : v1.vote_result = v2.vote_result)
    (hp : v1.policy_area = v2.policy_area)
    (hd : v1.description = v2.description) :
    score_vote cfg v1 = score_vote cfg v2 := by
  have hal : vote_aligns_with_values v1 = vote_aligns_with_values v2 := by
    unfold vote_aligns_with_values
    rw [hp, hd]
  have has : alignment_score v1 = alignment_score v2 := by
    unfold alignment_score
    rw [hr, hal]
  show max 0 (min 100 (50 + (alignment_score v1 - 50) *
      ((cfg.policy_weights v1.policy_area).getD (1/5)) * 2))
    = max 0 (min 100 (50 + (alignment_score v2 - 50) *
      ((cfg.policy_weights v2.policy_area).getD (1/5)) * 2))
  rw [has, hp]

/-- C10 witness: an unverified House vote and a disputed Senate companion
vote agreeing on result, area and description receive the same score. -/
theorem c10_score_vote_field_independence_witness :
    pro_market_vote.vote_result = pro_market_vote_alt.vote_result ∧
    pro_market_vote.policy_area = pro_market_vote_alt.policy_area ∧
    pro_market_vote.description = pro_market_vote_alt.description ∧
    pro_market_vote.bill_id ≠ pro_market_vote_alt.bill_id ∧
    pro_market_vote.verification_status ≠ pro_market_vote_alt.verification_status ∧
    score_vote DEFAULT_CLIENT_VALUES pro_market_vote
      = score_vote DEFAULT_CLIENT_VALUES pro_market_vote_alt :=
  ⟨rfl, rfl, rfl, by decide, by decide,
   c10_score_vote_field_independence DEFAULT_CLIENT_VALUES pro_market_vote
     pro_market_vote_alt rfl rfl rfl⟩

end OppoResearch
